import Mathlib

/-!
Verification development for the MRNASA map dashboard
(`src/unnamed/part_000`, the Leaflet front-end script).

The script is shallowly embedded as pure Lean functions over explicit
state records.  JavaScript numbers are modelled as exact rationals (ℚ);
DOM elements referenced by the script (recommendation container, loading
indicator, heatmap checkbox, modal) are assumed present, as on the
dashboard page, and their contents are fields of the state record.
-/

set_option autoImplicit false

namespace MRNASA

/-! ### GIBS layer configuration (GIBS_CONFIG, createGIBSTileUrl) -/

/-- Static descriptor of one GIBS imagery layer, from `GIBS_CONFIG.layers`. -/
structure LayerConfig where
  name : String
  tileMatrixSet : String
  maxZoom : Nat
  attribution : String
  opacity : ℚ
deriving Repr, DecidableEq

def GIBS_baseUrl : String := "https://gibs.earthdata.nasa.gov/wmts/epsg4326/best/"

def temperatureConfig : LayerConfig :=
  { name := "MODIS_Terra_Land_Surface_Temp_Day"
    tileMatrixSet := "EPSG4326_2km"
    maxZoom := 7
    attribution := "NASA GIBS MODIS LST"
    opacity := mkRat 65 100 }

def nightLightsConfig : LayerConfig :=
  { name := "VIIRS_SNPP_DayNightBand_ENCC"
    tileMatrixSet := "EPSG4326_500m"
    maxZoom := 8
    attribution := "NASA GIBS VIIRS Night Lights"
    opacity := mkRat 8 10 }

def vegetationConfig : LayerConfig :=
  { name := "MODIS_Terra_NDVI_8Day"
    tileMatrixSet := "EPSG4326_1km"
    maxZoom := 8
    attribution := "NASA GIBS MODIS NDVI"
    opacity := mkRat 7 10 }

/-- `createGIBSTileUrl(layerConfig, date)`: the templated tile URL. -/
def createGIBSTileUrl (cfg : LayerConfig) (date : String) : String :=
  GIBS_baseUrl ++ cfg.name ++ "/default/" ++ date ++ "/" ++ cfg.tileMatrixSet ++ "/{z}/{y}/{x}.png"

/-- A constructed Leaflet tile layer (`L.tileLayer(url, options)`). -/
structure TileSource where
  url : String
  maxZoom : Nat
  attribution : String
  opacity : ℚ
deriving Repr, DecidableEq

/-- Building the tile layer object for a config and a date. -/
def mkTileSource (cfg : LayerConfig) (date : String) : TileSource :=
  { url := createGIBSTileUrl cfg date
    maxZoom := cfg.maxZoom
    attribution := cfg.attribution
    opacity := cfg.opacity }

/-- One entry of `activeLayers`, together with whether the tile layer is
currently attached to the map (`map.hasLayer(layer)`). -/
structure LayerSlot where
  source : TileSource
  attached : Bool
deriving Repr, DecidableEq

/-- The module state touched by `updateGIBSLayersWithDate`: the global
`currentDate` and the three `activeLayers` entries (each `none` before
`initializeGIBSLayers` has registered it). -/
structure GibsState where
  currentDate : String
  temperature : Option LayerSlot
  nightLights : Option LayerSlot
  vegetation : Option LayerSlot
deriving Repr, DecidableEq

/-- One `if (activeLayers.X) { ... }` block of `updateGIBSLayersWithDate`:
record `wasActive`, remove the old layer from the map, construct the new
tile layer, re-attach it when it was attached.  Construction of the new
tile layer may throw (`buildFails`); in that case the block leaves the
old, now detached, layer object in `activeLayers.X` and the exception
propagates (`Except.error` carries the slot state at the throw point). -/
def rebuildSlot (buildFails : String → String → Bool) (cfg : LayerConfig)
    (dateStr : String) : Option LayerSlot → Except LayerSlot (Option LayerSlot)
  | none => .ok none
  | some s =>
      if buildFails cfg.name dateStr then
        .error { source := s.source, attached := false }
      else
        .ok (some { source := mkTileSource cfg dateStr, attached := s.attached })

/-- `updateGIBSLayersWithDate(dateStr)`.  The whole body runs inside a
single try/catch: `currentDate` is set first, then the three layers are
processed in order temperature, nightLights, vegetation; the first
exception jumps to the catch, which only logs, so the layers after the
failing one are left untouched and the function always returns normally
(no error is ever signalled to the caller). -/
def updateGIBSLayersWithDate (buildFails : String → String → Bool)
    (st : GibsState) (dateStr : String) : GibsState :=
  let st0 : GibsState := { st with currentDate := dateStr }
  match rebuildSlot buildFails temperatureConfig dateStr st0.temperature with
  | .error s => { st0 with temperature := some s }
  | .ok t =>
    let st1 : GibsState := { st0 with temperature := t }
    match rebuildSlot buildFails nightLightsConfig dateStr st1.nightLights with
    | .error s => { st1 with nightLights := some s }
    | .ok n =>
      let st2 : GibsState := { st1 with nightLights := n }
      match rebuildSlot buildFails vegetationConfig dateStr st2.vegetation with
      | .error s => { st2 with vegetation := some s }
      | .ok v => { st2 with vegetation := v }

/-- Normal operation: `L.tileLayer` construction does not throw. -/
def noBuildFailure : String → String → Bool := fun _ _ => false

/-- A failure model in which only the temperature layer build throws. -/
def failTemperatureBuild : String → String → Bool :=
  fun n _ => n == temperatureConfig.name

/-- A fully initialized registry state built for 2024-01-01, temperature
and night-lights attached, vegetation registered but detached. -/
def gibsReadyState : GibsState :=
  { currentDate := "2024-01-01"
    temperature := some { source := mkTileSource temperatureConfig "2024-01-01", attached := true }
    nightLights := some { source := mkTileSource nightLightsConfig "2024-01-01", attached := true }
    vegetation := some { source := mkTileSource vegetationConfig "2024-01-01", attached := false } }

/-- The state before `initializeGIBSLayers` has run: no layers registered. -/
def uninitializedGibs : GibsState :=
  { currentDate := "2024-01-01"
    temperature := none
    nightLights := none
    vegetation := none }

/-! ### Placements, analysis results and the rendering pipeline -/

/-- A structure marker placed in `drawnLayers` by `placeStructure`:
its layer-group id, its position, and `marker.structureType`. -/
structure Marker where
  id : Nat
  lat : ℚ
  lon : ℚ
  structureType : String
deriving Repr, DecidableEq

/-- One entry of `selectedPoints`, snapshotted from a marker. -/
structure SelPoint where
  lat : ℚ
  lon : ℚ
  type : String
deriving Repr, DecidableEq

/-- One entry of the `results` array returned by the scoring service
(`power_summary` fields flattened; absent fields are `none`). -/
structure AnalysisResultR where
  lat : ℚ
  lon : ℚ
  score : ℚ
  ndvi : ℚ
  population : ℚ
  mean_temp : Option ℚ
  mean_precip : Option ℚ
  n_days : Option Nat
deriving Repr, DecidableEq

/-- One rendered row of the recommendations list (`displayResults`). -/
structure RecRow where
  structureType : String
  score : ℚ
  scoreColor : String
  lat : ℚ
  lon : ℚ
  meanTemp : Option ℚ
  meanPrecip : Option ℚ
deriving Repr, DecidableEq

/-- One circle marker added to `heatLayer` by `updateAnalysisHeatmap`. -/
structure HeatMarker where
  lat : ℚ
  lon : ℚ
  color : String
  temp : ℚ
  score : ℚ
deriving Repr, DecidableEq

/-- The contents of the detail modal filled by `showDetailedAnalysis`. -/
structure DetailView where
  structureType : String
  score : ℚ
  lat : ℚ
  lon : ℚ
  meanTemp : Option ℚ
  meanPrecip : Option ℚ
  nDays : Option Nat
  recommendation : String
deriving Repr, DecidableEq

/-- The wire payload point (`payload.points[i]`), with the fixed
placeholder covariates from `analyzePoints`. -/
structure PayloadPoint where
  lat : ℚ
  lon : ℚ
  type : String
  ndvi : ℚ
  population : ℚ
  road_km : ℚ
  water_km : ℚ
deriving Repr, DecidableEq

/-- The body of the `POST /api/hotspot_score` request. -/
structure Payload where
  points : List PayloadPoint
  start : String
  endStr : String
deriving Repr, DecidableEq

/-- The scoring response: HTTP status plus the decoded JSON body
(`error` field and `results` array, each possibly absent). -/
structure HttpResponse where
  status : Nat
  error : Option String
  results : Option (List AnalysisResultR)
deriving Repr, DecidableEq

/-- The front-end state touched by the analysis and rendering functions:
the placement layer group, the `selectedPoints` snapshot, the stored
result array (`window.__analysisResults`), the rendered list rows, the
heat-layer markers, the heatmap checkbox and layer attachment, the
loading indicator, the alerts shown so far and the detail modal. -/
structure UiState where
  drawnLayers : List Marker
  selectedPoints : List SelPoint
  analysisResults : Option (List AnalysisResultR)
  recommendationRows : List RecRow
  heatMarkers : List HeatMarker
  heatChecked : Bool
  heatAttached : Bool
  loadingVisible : Bool
  alerts : List String
  modal : Option DetailView
deriving Repr, DecidableEq

/-- The empty session state right after `initMap`. -/
def initialUiState : UiState :=
  { drawnLayers := []
    selectedPoints := []
    analysisResults := none
    recommendationRows := []
    heatMarkers := []
    heatChecked := false
    heatAttached := false
    loadingVisible := false
    alerts := []
    modal := none }

/-- `window.removeMarker(layerId)`: drop the matching marker from
`drawnLayers`; nothing else is touched. -/
def removeMarker (st : UiState) (layerId : Nat) : UiState :=
  { st with drawnLayers := st.drawnLayers.filter (fun m => m.id ≠ layerId) }

/-- `window.clearAllMarkers()`: empty the placement layer group and the
`selectedPoints` snapshot, blank the recommendations container, clear the
heat layer.  The stored result array `window.__analysisResults` is not
touched. -/
def clearAllMarkers (st : UiState) : UiState :=
  { st with drawnLayers := []
            selectedPoints := []
            recommendationRows := []
            heatMarkers := [] }

/-- The score badge color thresholds used by `displayResults` and
`showDetailedAnalysis`. -/
def scoreColorOf (score : ℚ) : String :=
  if score ≥ 70 then "#10b981" else if score ≥ 50 then "#f59e0b" else "#ef4444"

/-- One list row: labelled by `selectedPoints[idx].type` when that index
exists, else the literal fallback used by the code. -/
def mkRecRow (points : List SelPoint) (idx : Nat) (r : AnalysisResultR) : RecRow :=
  { structureType :=
      match points.get? idx with
      | some p => p.type
      | none => "Unknown"
    score := r.score
    scoreColor := scoreColorOf r.score
    lat := r.lat
    lon := r.lon
    meanTemp := r.mean_temp
    meanPrecip := r.mean_precip }

/-- The `results.forEach((result, idx) => ...)` loop of `displayResults`. -/
def buildRecRows (points : List SelPoint) (idx : Nat) : List AnalysisResultR → List RecRow
  | [] => []
  | r :: rest => mkRecRow points idx r :: buildRecRows points (idx + 1) rest

/-- `displayResults(results)`: reset the container, store the result
array in `window.__analysisResults`, append one row per result. -/
def displayResults (results : List AnalysisResultR) (st : UiState) : UiState :=
  { st with analysisResults := some results
            recommendationRows := buildRecRows st.selectedPoints 0 results }

/-- The defined mean temperatures of a result array, in order. -/
def definedTemps (results : List AnalysisResultR) : List ℚ :=
  results.filterMap (fun r => r.mean_temp)

/-- The normalization step of `updateAnalysisHeatmap`:
`maxTemp > minTemp ? (temp - minTemp) / (maxTemp - minTemp) : 0.5`. -/
def normalizeTemp (minT maxT t : ℚ) : ℚ :=
  if maxT > minT then (t - minT) / (maxT - minT) else mkRat 5 10

/-- The color chain of `updateAnalysisHeatmap`, on the normalized value. -/
def heatColor (normalized : ℚ) : String :=
  if normalized < mkRat 25 100 then "#3b82f6"
  else if normalized < mkRat 5 10 then "#22c55e"
  else if normalized < mkRat 65 100 then "#eab308"
  else if normalized < mkRat 8 10 then "#f97316"
  else "#ef4444"

/-- The five heat colors, ordered coolest to hottest. -/
def bucketColors : List String :=
  ["#3b82f6", "#22c55e", "#eab308", "#f97316", "#ef4444"]

/-- Modelled from the spec: the 5-way bucket index with boundaries at
0.25, 0.5, 0.65, 0.8, a boundary value going to the upper bucket; the
code computes the bucket color directly and this index is compared with
it through `bucketColors`. -/
def tempBucket (normalized : ℚ) : Nat :=
  if normalized < mkRat 25 100 then 0
  else if normalized < mkRat 5 10 then 1
  else if normalized < mkRat 65 100 then 2
  else if normalized < mkRat 8 10 then 3
  else 4

/-- One iteration of the marker loop of `updateAnalysisHeatmap`: results
without a defined mean temperature are skipped. -/
def mkHeatMarker (minT maxT : ℚ) (r : AnalysisResultR) : Option HeatMarker :=
  r.mean_temp.map fun temp =>
    { lat := r.lat
      lon := r.lon
      color := heatColor (normalizeTemp minT maxT temp)
      temp := temp
      score := r.score }

/-- `updateAnalysisHeatmap(results)`: clear the heat layer, return early
on an empty array or when no result has a defined temperature, otherwise
build one circle marker per result with a defined temperature and, when
the heatmap checkbox is unchecked, check it and attach the heat layer. -/
def updateAnalysisHeatmap (results : List AnalysisResultR) (st : UiState) : UiState :=
  let cleared : UiState := { st with heatMarkers := [] }
  if results.length = 0 then cleared
  else
    match definedTemps results with
    | [] => cleared
    | t :: ts =>
      let minTemp := ts.foldl min t
      let maxTemp := ts.foldl max t
      let markers := results.filterMap (mkHeatMarker minTemp maxTemp)
      let withMarkers : UiState := { cleared with heatMarkers := markers }
      if withMarkers.heatChecked then withMarkers
      else { withMarkers with heatChecked := true, heatAttached := true }

/-- The recommendation text of `showDetailedAnalysis`, by score band. -/
def recommendationFor (score : ℚ) : String :=
  if score ≥ 70 then
    "Excellent location for infrastructure. High suitability based on climate and accessibility factors."
  else if score ≥ 50 then
    "Moderate suitability. Consider additional site assessments and potential improvements."
  else
    "Low suitability. This location may face significant challenges. Consider alternative sites."

/-- `window.showDetailedAnalysis(index)`: a silent no-op when there is no
stored result array or no result at `index`; otherwise fill and open the
modal, labelling with the positional placement type or the fallback. -/
def showDetailedAnalysis (st : UiState) (index : Nat) : UiState :=
  match st.analysisResults with
  | none => st
  | some results =>
    match results.get? index with
    | none => st
    | some result =>
      let structureType :=
        (match st.selectedPoints.get? index with
         | some p => p.type
         | none => "Unknown")
      let view : DetailView :=
        { structureType := structureType
          score := result.score
          lat := result.lat
          lon := result.lon
          meanTemp := result.mean_temp
          meanPrecip := result.mean_precip
          nDays := result.n_days
          recommendation := recommendationFor result.score }
      { st with modal := some view }

/-! ### analyzePoints -/

/-- The snapshot loop at the top of `analyzePoints`: every marker in the
placement layer group carries a position and a structure type. -/
def snapshotPoints (drawn : List Marker) : List SelPoint :=
  drawn.map (fun m => { lat := m.lat, lon := m.lon, type := m.structureType })

/-- The request body built by `analyzePoints`: each point is augmented
with the fixed placeholder covariates; the date inputs are sent with the
dashes stripped. -/
def buildPayload (pts : List SelPoint) (startVal endVal : String) : Payload :=
  { points := pts.map (fun p =>
      { lat := p.lat
        lon := p.lon
        type := p.type
        ndvi := mkRat 3 10
        population := 2000
        road_km := 1
        water_km := 2 })
    start := startVal.replace "-" ""
    endStr := endVal.replace "-" "" }

def validationMsg : String :=
  "Please place at least one structure on the map before analyzing."

def noResultsMsg : String := "No results returned from analysis."

def analysisFailedMsg (detail : String) : String := "Analysis failed: " ++ detail

/-- `analyzePoints()`.  `respond` models the scoring service: it maps the
issued request body to the HTTP response.  The returned pair is the new
state together with the request body that was sent (`none` when the
validation guard returned before any network call).  A non-2xx status or
a present `error` field throws into the catch block, which alerts; the
`finally` block always hides the loading indicator. -/
def analyzePoints (startVal endVal : String) (respond : Payload → HttpResponse)
    (st : UiState) : UiState × Option Payload :=
  let pts := snapshotPoints st.drawnLayers
  let st0 : UiState := { st with selectedPoints := pts }
  if pts.isEmpty then
    ({ st0 with alerts := st0.alerts ++ [validationMsg] }, none)
  else
    let st1 : UiState := { st0 with loadingVisible := true }
    let payload := buildPayload pts startVal endVal
    let resp := respond payload
    let final : UiState :=
      if 200 ≤ resp.status ∧ resp.status < 300 then
        match resp.error with
        | some msg => { st1 with alerts := st1.alerts ++ [analysisFailedMsg msg] }
        | none =>
          match resp.results with
          | some rs =>
            if rs.isEmpty then { st1 with alerts := st1.alerts ++ [noResultsMsg] }
            else updateAnalysisHeatmap rs (displayResults rs st1)
          | none => { st1 with alerts := st1.alerts ++ [noResultsMsg] }
      else
        { st1 with alerts :=
            st1.alerts ++ [analysisFailedMsg ("Server returned " ++ toString resp.status)] }
    ({ final with loadingVisible := false }, some payload)

/-! ### Concrete fixtures -/

/-- A result with no climate summary at all (`power_summary` absent). -/
def noTempResult : AnalysisResultR :=
  { lat := 10, lon := 76, score := 55, ndvi := mkRat 3 10, population := 2000
    mean_temp := none, mean_precip := none, n_days := none }

/-- A result with a defined mean temperature. -/
def tempResultA : AnalysisResultR :=
  { lat := 10, lon := 76, score := 80, ndvi := mkRat 3 10, population := 2000
    mean_temp := some 25, mean_precip := some 5, n_days := some 30 }

/-- A second result, without a defined mean temperature. -/
def tempResultB : AnalysisResultR :=
  { lat := 11, lon := 77, score := 45, ndvi := mkRat 3 10, population := 2000
    mean_temp := none, mean_precip := none, n_days := some 30 }

def housePoint : SelPoint := { lat := 10, lon := 76, type := "house" }

def hospitalPoint : SelPoint := { lat := 11, lon := 77, type := "hospital" }

/-- A session with one placed structure, snapshot taken. -/
def uiWithOnePlacement : UiState :=
  { initialUiState with
      drawnLayers := [{ id := 1, lat := 10, lon := 76, structureType := "house" }]
      selectedPoints := [housePoint] }

/-- A session with two placed structures, snapshot taken. -/
def uiTwoPlacements : UiState :=
  { initialUiState with
      drawnLayers := [{ id := 1, lat := 10, lon := 76, structureType := "house" },
                      { id := 2, lat := 11, lon := 77, structureType := "hospital" }]
      selectedPoints := [housePoint, hospitalPoint] }

/-- The session right after a successful analysis of the two placements:
results stored, list rendered, heat layer populated. -/
def staleUiState : UiState :=
  updateAnalysisHeatmap [tempResultA, tempResultB]
    (displayResults [tempResultA, tempResultB] uiTwoPlacements)

/-- A scoring service that always fails with HTTP 500. -/
def failingServer : Payload → HttpResponse :=
  fun _ => { status := 500, error := none, results := none }

/-- A scoring service that always answers 200 with one scored result. -/
def okServer : Payload → HttpResponse :=
  fun _ => { status := 200, error := none, results := some [tempResultA] }

/-- A session with one placement but a stored result array of length two:
the served results outnumber the placement snapshot. -/
def uiMismatch : UiState :=
  { uiWithOnePlacement with analysisResults := some [tempResultA, tempResultB] }

/-! ### Theorems about the layer registry -/

/-- C3: for every registered layer and dates d1, d2, running
`updateGIBSLayersWithDate(d1)` then `updateGIBSLayersWithDate(d2)` (with
tile-layer construction succeeding, as in normal operation) leaves each
layer attached to the map exactly as it was before either call, while the
stored tile source of each registered layer is replaced by one built for
d2 and the current date becomes d2: a date change never attaches a
detached layer nor detaches an attached one. -/
theorem setDate_preserves_visibility (st : GibsState) (d1 d2 : String) :
    ((updateGIBSLayersWithDate noBuildFailure
        (updateGIBSLayersWithDate noBuildFailure st d1) d2).temperature.map LayerSlot.attached
      = st.temperature.map LayerSlot.attached)
    ∧ ((updateGIBSLayersWithDate noBuildFailure
        (updateGIBSLayersWithDate noBuildFailure st d1) d2).nightLights.map LayerSlot.attached
      = st.nightLights.map LayerSlot.attached)
    ∧ ((updateGIBSLayersWithDate noBuildFailure
        (updateGIBSLayersWithDate noBuildFailure st d1) d2).vegetation.map LayerSlot.attached
      = st.vegetation.map LayerSlot.attached)
    ∧ ((updateGIBSLayersWithDate noBuildFailure st d1).temperature.map LayerSlot.attached
      = st.temperature.map LayerSlot.attached)
    ∧ ((updateGIBSLayersWithDate noBuildFailure st d1).nightLights.map LayerSlot.attached
      = st.nightLights.map LayerSlot.attached)
    ∧ ((updateGIBSLayersWithDate noBuildFailure st d1).vegetation.map LayerSlot.attached
      = st.vegetation.map LayerSlot.attached)
    ∧ ((updateGIBSLayersWithDate noBuildFailure
        (updateGIBSLayersWithDate noBuildFailure st d1) d2).temperature.map LayerSlot.source
      = st.temperature.map (fun _ => mkTileSource temperatureConfig d2))
    ∧ ((updateGIBSLayersWithDate noBuildFailure
        (updateGIBSLayersWithDate noBuildFailure st d1) d2).nightLights.map LayerSlot.source
      = st.nightLights.map (fun _ => mkTileSource nightLightsConfig d2))
    ∧ ((updateGIBSLayersWithDate noBuildFailure
        (updateGIBSLayersWithDate noBuildFailure st d1) d2).vegetation.map LayerSlot.source
      = st.vegetation.map (fun _ => mkTileSource vegetationConfig d2))
    ∧ (updateGIBSLayersWithDate noBuildFailure
        (updateGIBSLayersWithDate noBuildFailure st d1) d2).currentDate = d2 := by
  rcases st with ⟨d, t, n, v⟩
  cases t <;> cases n <;> cases v <;>
    simp [updateGIBSLayersWithDate, rebuildSlot, noBuildFailure]

/-- C1 counterexample: with all three layers registered, a failing build
of the temperature tile source makes `updateGIBSLayersWithDate` leave the
night-lights layer entry completely untouched — it is not rebuilt for the
new date (its stored URL differs from the new-date URL) — because the
single try/catch around the whole function aborts the remaining layer
updates; the temperature layer itself is left detached with its old
source. -/
theorem layer_failure_not_isolated_counterexample :
    ((updateGIBSLayersWithDate failTemperatureBuild gibsReadyState "2024-02-02").nightLights
        = gibsReadyState.nightLights)
    ∧ (gibsReadyState.nightLights.map (fun s => s.source.url)
        ≠ some (createGIBSTileUrl nightLightsConfig "2024-02-02"))
    ∧ ((updateGIBSLayersWithDate failTemperatureBuild gibsReadyState "2024-02-02").temperature
        = some { source := mkTileSource temperatureConfig "2024-01-01", attached := false }) := by
  refine ⟨by decide, by decide, by decide⟩

/-- C1 amended: the per-layer rebuild in `updateGIBSLayersWithDate` is
not isolated: the whole function runs in a single try/catch, so when
building the temperature layer tile source fails, the layers processed
after it (night lights, vegetation) are left untouched — neither
detached, rebuilt, nor re-attached — while the temperature layer is left
detached with its old source; the failure is only logged and the
function returns normally with the current date updated. -/
theorem layer_failure_aborts_later_layers (buildFails : String → String → Bool)
    (st : GibsState) (d : String) (s : LayerSlot)
    (hslot : st.temperature = some s)
    (hfail : buildFails temperatureConfig.name d = true) :
    ((updateGIBSLayersWithDate buildFails st d).nightLights = st.nightLights)
    ∧ ((updateGIBSLayersWithDate buildFails st d).vegetation = st.vegetation)
    ∧ ((updateGIBSLayersWithDate buildFails st d).temperature
        = some { source := s.source, attached := false })
    ∧ ((updateGIBSLayersWithDate buildFails st d).currentDate = d) := by
  simp [updateGIBSLayersWithDate, rebuildSlot, hslot, hfail]

/-- Witness for the amended C1 theorem at a concrete input. -/
theorem layer_failure_aborts_later_layers_witness :
    ((updateGIBSLayersWithDate failTemperatureBuild gibsReadyState "2024-02-02").nightLights
        = gibsReadyState.nightLights)
    ∧ ((updateGIBSLayersWithDate failTemperatureBuild gibsReadyState "2024-02-02").vegetation
        = gibsReadyState.vegetation)
    ∧ ((updateGIBSLayersWithDate failTemperatureBuild gibsReadyState "2024-02-02").temperature
        = some { source := (mkTileSource temperatureConfig "2024-01-01"), attached := false })
    ∧ ((updateGIBSLayersWithDate failTemperatureBuild gibsReadyState "2024-02-02").currentDate
        = "2024-02-02") :=
  layer_failure_aborts_later_layers failTemperatureBuild gibsReadyState "2024-02-02"
    { source := mkTileSource temperatureConfig "2024-01-01", attached := true }
    (by decide) (by decide)

/-- C8 counterexample: calling `updateGIBSLayersWithDate` before any
layer is registered returns normally with only the stored current date
changed — no error is signalled (the try/catch swallows any exception and
the guards are all falsy), contradicting a fail-fast reading. -/
theorem setDate_before_initialize_counterexample :
    updateGIBSLayersWithDate noBuildFailure uninitializedGibs "2024-02-02"
      = { uninitializedGibs with currentDate := "2024-02-02" } := rfl

/-- C8 amended: calling `updateGIBSLayersWithDate` before `initialize`
(no layers registered) is a silent near no-op: it updates only the stored
current date, touches no layer, and signals no error to the caller. -/
theorem setDate_before_initialize_silent (buildFails : String → String → Bool)
    (st : GibsState) (d : String)
    (h1 : st.temperature = none) (h2 : st.nightLights = none)
    (h3 : st.vegetation = none) :
    updateGIBSLayersWithDate buildFails st d = { st with currentDate := d } := by
  simp [updateGIBSLayersWithDate, rebuildSlot, h1, h2, h3]

/-- Witness for the amended C8 theorem at a concrete input. -/
theorem setDate_before_initialize_silent_witness :
    updateGIBSLayersWithDate noBuildFailure uninitializedGibs "2024-03-03"
      = { uninitializedGibs with currentDate := "2024-03-03" } :=
  setDate_before_initialize_silent noBuildFailure uninitializedGibs "2024-03-03" rfl rfl rfl

/-! ### Helper lemmas about the rendering pipeline -/

theorem buildRecRows_length (points : List SelPoint) :
    ∀ (rs : List AnalysisResultR) (idx : Nat), (buildRecRows points idx rs).length = rs.length
  | [], _ => rfl
  | _ :: rest, idx => by
      simp [buildRecRows, buildRecRows_length points rest (idx + 1)]

theorem buildRecRows_get (points : List SelPoint) :
    ∀ (rs : List AnalysisResultR) (idx i : Nat),
      (buildRecRows points idx rs).get? i = (rs.get? i).map (mkRecRow points (idx + i))
  | [], _, _ => by simp [buildRecRows]
  | _ :: _, _, 0 => by simp [buildRecRows]
  | _ :: rest, idx, i + 1 => by
      have harith : idx + (i + 1) = (idx + 1) + i := by omega
      simp only [buildRecRows, List.get?_cons_succ, harith]
      exact buildRecRows_get points rest (idx + 1) i

theorem filterMap_heat_positions (a b : ℚ) :
    ∀ rs : List AnalysisResultR, (∀ r ∈ rs, r.mean_temp.isSome = true) →
      (rs.filterMap (mkHeatMarker a b)).map (fun m => (m.lat, m.lon))
        = rs.map (fun r => (r.lat, r.lon))
  | [], _ => rfl
  | r :: rest, h => by
      obtain ⟨t, ht⟩ := Option.isSome_iff_exists.mp (h r (by simp))
      have ih := filterMap_heat_positions a b rest (fun x hx => h x (by simp [hx]))
      simp [List.filterMap_cons, mkHeatMarker, ht, ih]

theorem filterMap_heat_length (a b : ℚ) (rs : List AnalysisResultR)
    (h : ∀ r ∈ rs, r.mean_temp.isSome = true) :
    (rs.filterMap (mkHeatMarker a b)).length = rs.length := by
  have := congrArg List.length (filterMap_heat_positions a b rs h)
  simpa using this

theorem foldl_min_le (ts : List ℚ) : ∀ t : ℚ, ts.foldl min t ≤ t := by
  induction ts with
  | nil => intro t; simp
  | cons a ts ih =>
      intro t
      calc (a :: ts).foldl min t = ts.foldl min (min t a) := rfl
        _ ≤ min t a := ih (min t a)
        _ ≤ t := min_le_left t a

theorem le_foldl_max (ts : List ℚ) : ∀ t : ℚ, t ≤ ts.foldl max t := by
  induction ts with
  | nil => intro t; simp
  | cons a ts ih =>
      intro t
      calc t ≤ max t a := le_max_left t a
        _ ≤ ts.foldl max (max t a) := ih (max t a)
        _ = (a :: ts).foldl max t := rfl

theorem foldl_min_le_foldl_max (ts : List ℚ) (t : ℚ) :
    ts.foldl min t ≤ ts.foldl max t :=
  le_trans (foldl_min_le ts t) (le_foldl_max ts t)

theorem updateAnalysisHeatmap_heatMarkers (results : List AnalysisResultR) (st : UiState)
    (t : ℚ) (ts : List ℚ) (h : definedTemps results = t :: ts) :
    (updateAnalysisHeatmap results st).heatMarkers
      = results.filterMap (mkHeatMarker (ts.foldl min t) (ts.foldl max t)) := by
  have hres : results.length ≠ 0 := by
    intro he
    rw [List.length_eq_zero] at he
    simp [he, definedTemps] at h
  rw [updateAnalysisHeatmap, if_neg hres, h]
  by_cases hc : st.heatChecked <;> simp [hc]

theorem updateAnalysisHeatmap_forces_checkbox (results : List AnalysisResultR) (st : UiState)
    (hdef : definedTemps results ≠ []) (hch : st.heatChecked = false) :
    ((updateAnalysisHeatmap results st).heatChecked = true)
    ∧ ((updateAnalysisHeatmap results st).heatAttached = true) := by
  obtain ⟨t, ts, h⟩ : ∃ t ts, definedTemps results = t :: ts := by
    cases hd : definedTemps results with
    | nil => exact absurd hd hdef
    | cons t ts => exact ⟨t, ts, rfl⟩
  have hres : results.length ≠ 0 := by
    intro he
    rw [List.length_eq_zero] at he
    simp [he, definedTemps] at h
  rw [updateAnalysisHeatmap, if_neg hres, h]
  simp [hch]

/-! ### Theorems about the rendering pipeline and the analysis flow -/

/-- C2 counterexample: starting from the session state right after a
successful analysis of two placements, `removeMarker` shrinks the
placement set but leaves the stale ranked list (2 rows), the stale heat
overlay marker, and the stored result array all displayed and
addressable — the detail view still opens on the old results; likewise
`clearAllMarkers` blanks the list and the overlay but leaves the stored
result array addressable by the detail view. -/
theorem stale_results_counterexample :
    ((removeMarker staleUiState 1).drawnLayers.length = 1)
    ∧ ((removeMarker staleUiState 1).recommendationRows.length = 2)
    ∧ ((removeMarker staleUiState 1).heatMarkers.length = 1)
    ∧ ((removeMarker staleUiState 1).analysisResults = some [tempResultA, tempResultB])
    ∧ ((showDetailedAnalysis (removeMarker staleUiState 1) 0).modal ≠ none)
    ∧ ((clearAllMarkers staleUiState).analysisResults = some [tempResultA, tempResultB])
    ∧ ((showDetailedAnalysis (clearAllMarkers staleUiState) 0).modal ≠ none) := by
  refine ⟨by decide, by decide, by decide, by decide, by decide, by decide, by decide⟩

/-- C2 amended: changing the placement set without a fresh analysis does
not invalidate the earlier results.  `removeMarker` leaves the stored
result array, the ranked list rows and the heat overlay markers exactly
as they were; `clearAllMarkers` empties the list rows and the heat
overlay but still leaves the stored result array (and hence the detail
view addressing it) untouched. -/
theorem placement_mutation_keeps_results (st : UiState) (layerId : Nat) :
    ((removeMarker st layerId).analysisResults = st.analysisResults)
    ∧ ((removeMarker st layerId).recommendationRows = st.recommendationRows)
    ∧ ((removeMarker st layerId).heatMarkers = st.heatMarkers)
    ∧ ((removeMarker st layerId).selectedPoints = st.selectedPoints)
    ∧ ((clearAllMarkers st).recommendationRows = [])
    ∧ ((clearAllMarkers st).heatMarkers = [])
    ∧ ((clearAllMarkers st).drawnLayers = [])
    ∧ ((clearAllMarkers st).analysisResults = st.analysisResults) :=
  ⟨rfl, rfl, rfl, rfl, rfl, rfl, rfl, rfl⟩

/-- C4: heatmap normalization and bucketing.  The ten boundary-test
normalized values map to buckets 0,0,1,1,2,2,3,3,4,4 (a boundary value
goes to the upper bucket); the color chain of the code agrees with the
5-bucket index everywhere; 0.5 lands in the medium bucket 2; over the
defined temperatures the code normalizes by `(t - min) / (max - min)`
and uniformly by 0.5 exactly when max equals min (min and max being the
fold over the defined temperatures, min never exceeds max); and when no
result has a defined temperature the heatmap update only clears the heat
layer and returns without error. -/
theorem heatmap_normalization_and_buckets :
    (([0, mkRat 249 1000, mkRat 25 100, mkRat 499 1000, mkRat 5 10, mkRat 649 1000,
        mkRat 65 100, mkRat 799 1000, mkRat 8 10, 1] : List ℚ).map tempBucket
      = [0, 0, 1, 1, 2, 2, 3, 3, 4, 4])
    ∧ (∀ n : ℚ, heatColor n = bucketColors.getD (tempBucket n) "")
    ∧ (tempBucket (mkRat 5 10) = 2)
    ∧ (∀ (t x : ℚ) (ts : List ℚ),
        normalizeTemp (ts.foldl min t) (ts.foldl max t) x
          = if ts.foldl max t = ts.foldl min t then mkRat 5 10
            else (x - ts.foldl min t) / (ts.foldl max t - ts.foldl min t))
    ∧ (∀ (results : List AnalysisResultR) (st : UiState),
        definedTemps results = [] →
          updateAnalysisHeatmap results st = { st with heatMarkers := [] }) := by
  refine ⟨by decide, ?_, by decide, ?_, ?_⟩
  · intro n
    simp only [heatColor, tempBucket, bucketColors]
    split_ifs <;> rfl
  · intro t x ts
    have hle := foldl_min_le_foldl_max ts t
    by_cases h : ts.foldl max t = ts.foldl min t
    · rw [if_pos h]
      have : ¬ ts.foldl min t < ts.foldl max t := by rw [h]; exact lt_irrefl _
      simp [normalizeTemp, this]
    · rw [if_neg h]
      have hlt : ts.foldl min t < ts.foldl max t := lt_of_le_of_ne hle (fun he => h he.symm)
      simp [normalizeTemp, hlt]
  · intro results st h
    cases results with
    | nil => simp [updateAnalysisHeatmap]
    | cons r rs => rw [updateAnalysisHeatmap, if_neg (by simp), h]

/-- Witness for the C4 theorem at concrete inputs: a uniform temperature
field normalizes to 0.5, and a result set with no defined temperature
leaves the state unchanged apart from the cleared heat layer. -/
theorem heatmap_normalization_witness :
    (normalizeTemp (([] : List ℚ).foldl min 20) (([] : List ℚ).foldl max 20) 20 = mkRat 5 10)
    ∧ (updateAnalysisHeatmap [noTempResult] initialUiState
        = { initialUiState with heatMarkers := [] }) := by
  constructor
  · have h := heatmap_normalization_and_buckets.2.2.2.1 20 20 []
    simpa using h
  · exact heatmap_normalization_and_buckets.2.2.2.2 [noTempResult] initialUiState (by decide)

/-- C5 counterexample: with one placement and one matching result whose
mean temperature is absent, rendering produces the expected single list
row but zero overlay markers, not `|R| = 1` of them: the marker loop
skips results without a defined mean temperature. -/
theorem render_marker_count_counterexample :
    ((displayResults [noTempResult] uiWithOnePlacement).recommendationRows.length = 1)
    ∧ ((updateAnalysisHeatmap [noTempResult]
          (displayResults [noTempResult] uiWithOnePlacement)).heatMarkers.length = 0)
    ∧ ([noTempResult].length = uiWithOnePlacement.selectedPoints.length) := by
  refine ⟨by decide, by decide, by decide⟩

/-- C5 amended: rendering a result array R against the placement
snapshot P yields exactly `|R|` list rows, row i labelled by the type of
`P[i]` (or the fallback when P is shorter), and — after clearing all
prior heat markers — one overlay marker per result *with a defined mean
temperature*, at its (lat, lon), in result order; hence exactly `|R|`
markers when every result has a defined mean temperature. -/
theorem render_counts_and_order (results : List AnalysisResultR) (st : UiState)
    (hall : ∀ r ∈ results, r.mean_temp.isSome = true) :
    ((displayResults results st).recommendationRows.length = results.length)
    ∧ (∀ i : Nat,
        ((displayResults results st).recommendationRows.get? i).map RecRow.structureType
          = (results.get? i).map (fun _ =>
              match st.selectedPoints.get? i with
              | some p => p.type
              | none => "Unknown"))
    ∧ ((updateAnalysisHeatmap results (displayResults results st)).heatMarkers.map
          (fun m => (m.lat, m.lon))
        = results.map (fun r => (r.lat, r.lon)))
    ∧ ((updateAnalysisHeatmap results (displayResults results st)).heatMarkers.length
        = results.length) := by
  refine ⟨buildRecRows_length st.selectedPoints results 0, ?_, ?_⟩
  · intro i
    rw [show (displayResults results st).recommendationRows
          = buildRecRows st.selectedPoints 0 results from rfl]
    rw [buildRecRows_get st.selectedPoints results 0 i]
    cases results.get? i with
    | none => rfl
    | some r => simp [mkRecRow]
  · cases results with
    | nil => exact ⟨rfl, rfl⟩
    | cons r rs =>
        obtain ⟨t, ht⟩ := Option.isSome_iff_exists.mp (hall r (by simp))
        have hcons : definedTemps (r :: rs) = t :: definedTemps rs := by
          simp [definedTemps, List.filterMap_cons, ht]
        have hm := updateAnalysisHeatmap_heatMarkers (r :: rs)
          (displayResults (r :: rs) st) t (definedTemps rs) hcons
        rw [hm]
        constructor
        · exact filterMap_heat_positions _ _ (r :: rs) hall
        · exact filterMap_heat_length _ _ (r :: rs) hall

/-- Witness for the amended C5 theorem at a concrete input: one
placement, one result with a defined mean temperature. -/
theorem render_counts_and_order_witness :
    ((displayResults [tempResultA] uiWithOnePlacement).recommendationRows.length
        = [tempResultA].length)
    ∧ (∀ i : Nat,
        ((displayResults [tempResultA] uiWithOnePlacement).recommendationRows.get? i).map
            RecRow.structureType
          = ([tempResultA].get? i).map (fun _ =>
              match uiWithOnePlacement.selectedPoints.get? i with
              | some p => p.type
              | none => "Unknown"))
    ∧ ((updateAnalysisHeatmap [tempResultA]
          (displayResults [tempResultA] uiWithOnePlacement)).heatMarkers.map
            (fun m => (m.lat, m.lon))
        = [tempResultA].map (fun r => (r.lat, r.lon)))
    ∧ ((updateAnalysisHeatmap [tempResultA]
          (displayResults [tempResultA] uiWithOnePlacement)).heatMarkers.length
        = [tempResultA].length) :=
  render_counts_and_order [tempResultA] uiWithOnePlacement (by decide)

/-- C6: when the scoring response is a failure — a non-2xx status or a
present error field — the analysis run appends a user-facing alert,
leaves the stored result array, the rendered list rows and the heat
overlay markers untouched, and clears the loading indicator. -/
theorem failed_analysis_preserves_render (startVal endVal : String)
    (respond : Payload → HttpResponse) (st : UiState)
    (hne : (snapshotPoints st.drawnLayers).isEmpty = false)
    (hfail :
      ¬(200 ≤ (respond (buildPayload (snapshotPoints st.drawnLayers) startVal endVal)).status
        ∧ (respond (buildPayload (snapshotPoints st.drawnLayers) startVal endVal)).status < 300)
      ∨ (respond (buildPayload (snapshotPoints st.drawnLayers) startVal endVal)).error.isSome
          = true) :
    ((analyzePoints startVal endVal respond st).1.analysisResults = st.analysisResults)
    ∧ ((analyzePoints startVal endVal respond st).1.recommendationRows = st.recommendationRows)
    ∧ ((analyzePoints startVal endVal respond st).1.heatMarkers = st.heatMarkers)
    ∧ ((analyzePoints startVal endVal respond st).1.loadingVisible = false)
    ∧ (∃ m : String, (analyzePoints startVal endVal respond st).1.alerts
        = st.alerts ++ [analysisFailedMsg m]) := by
  have key : ∃ m : String, analyzePoints startVal endVal respond st
      = ({ st with
            selectedPoints := snapshotPoints st.drawnLayers
            loadingVisible := false
            alerts := st.alerts ++ [analysisFailedMsg m] },
         some (buildPayload (snapshotPoints st.drawnLayers) startVal endVal)) := by
    rw [analyzePoints, hne]
    rw [if_neg (by simp : ¬ (false = true))]
    dsimp only []
    by_cases hok :
        200 ≤ (respond (buildPayload (snapshotPoints st.drawnLayers) startVal endVal)).status
        ∧ (respond (buildPayload (snapshotPoints st.drawnLayers) startVal endVal)).status < 300
    · rcases hfail with h | h
      · exact absurd hok h
      · obtain ⟨msg, hmsg⟩ := Option.isSome_iff_exists.mp h
        rw [if_pos hok, hmsg]
        exact ⟨msg, rfl⟩
    · rw [if_neg hok]
      exact ⟨_, rfl⟩
  obtain ⟨m, hm⟩ := key
  rw [hm]
  exact ⟨rfl, rfl, rfl, rfl, m, rfl⟩

/-- Witness for the C6 theorem: one placement, a server that always
answers HTTP 500. -/
theorem failed_analysis_witness :
    ((analyzePoints "2024-01-01" "2024-01-31" failingServer uiWithOnePlacement).1.analysisResults
        = uiWithOnePlacement.analysisResults)
    ∧ ((analyzePoints "2024-01-01" "2024-01-31" failingServer
          uiWithOnePlacement).1.recommendationRows = uiWithOnePlacement.recommendationRows)
    ∧ ((analyzePoints "2024-01-01" "2024-01-31" failingServer uiWithOnePlacement).1.heatMarkers
        = uiWithOnePlacement.heatMarkers)
    ∧ ((analyzePoints "2024-01-01" "2024-01-31" failingServer
          uiWithOnePlacement).1.loadingVisible = false)
    ∧ (∃ m : String, (analyzePoints "2024-01-01" "2024-01-31" failingServer
          uiWithOnePlacement).1.alerts
        = uiWithOnePlacement.alerts ++ [analysisFailedMsg m]) :=
  failed_analysis_preserves_render "2024-01-01" "2024-01-31" failingServer uiWithOnePlacement
    (by decide) (Or.inl (by decide))

/-- C7: invoking the analysis with no placed structures issues no
network request (no payload is sent), appends the validation alert, and
leaves the whole session state — including any previously rendered result
set — unchanged apart from the emptied snapshot. -/
theorem analyze_empty_placements (startVal endVal : String)
    (respond : Payload → HttpResponse) (st : UiState)
    (h : st.drawnLayers = []) :
    analyzePoints startVal endVal respond st
      = ({ st with selectedPoints := [], alerts := st.alerts ++ [validationMsg] }, none) := by
  rw [analyzePoints]
  simp [snapshotPoints, h]

/-- Witness for the C7 theorem: an empty session with a prior stale
analysis would also qualify; here the initial state is used. -/
theorem analyze_empty_placements_witness :
    analyzePoints "2024-01-01" "2024-01-31" failingServer initialUiState
      = ({ initialUiState with
            selectedPoints := []
            alerts := initialUiState.alerts ++ [validationMsg] }, none) :=
  analyze_empty_placements "2024-01-01" "2024-01-31" failingServer initialUiState rfl

/-- C9: after a successful analysis whose results carry at least one
defined mean temperature, the heatmap is forced visible as a side effect
of rendering: with the heatmap checkbox unchecked beforehand, it ends up
checked and the heat layer attached to the map, overriding the prior
toggle-off. -/
theorem heatmap_forced_visible (startVal endVal : String)
    (respond : Payload → HttpResponse) (st : UiState) (rs : List AnalysisResultR)
    (hne : (snapshotPoints st.drawnLayers).isEmpty = false)
    (hresp : respond (buildPayload (snapshotPoints st.drawnLayers) startVal endVal)
        = { status := 200, error := none, results := some rs })
    (hdef : definedTemps rs ≠ [])
    (hunchecked : st.heatChecked = false) :
    ((analyzePoints startVal endVal respond st).1.heatChecked = true)
    ∧ ((analyzePoints startVal endVal respond st).1.heatAttached = true) := by
  have hrs : rs.isEmpty = false := by
    cases rs with
    | nil => exact absurd rfl hdef
    | cons a l => rfl
  rw [analyzePoints, hne]
  rw [if_neg (by simp : ¬ (false = true))]
  dsimp only []
  rw [hresp]
  dsimp only []
  rw [if_pos (by constructor <;> norm_num : (200:Nat) ≤ 200 ∧ (200:Nat) < 300), hrs]
  rw [if_neg (by simp : ¬ (false = true))]
  exact updateAnalysisHeatmap_forces_checkbox rs _ hdef hunchecked

/-- Witness for the C9 theorem: one placement, a server answering 200
with one result that has a defined mean temperature, checkbox unchecked. -/
theorem heatmap_forced_visible_witness :
    ((analyzePoints "2024-01-01" "2024-01-31" okServer uiWithOnePlacement).1.heatChecked = true)
    ∧ ((analyzePoints "2024-01-01" "2024-01-31" okServer uiWithOnePlacement).1.heatAttached
        = true) :=
  heatmap_forced_visible "2024-01-01" "2024-01-31" okServer uiWithOnePlacement [tempResultA]
    (by decide) rfl (by decide) rfl

/-- C10: rendering and the detail view are total under a
result/placement length mismatch: a list row whose index has no
corresponding placement is labelled with the fallback type "Unknown";
opening the detail view at an index with no result in the stored array
(or with no stored array at all) is a silent no-op; and opening it at an
index that has a result but no placement fills the modal with the
"Unknown" label instead of failing. -/
theorem mismatch_totality :
    (∀ (results : List AnalysisResultR) (st : UiState) (idx : Nat),
        st.selectedPoints.length ≤ idx → idx < results.length →
        ((displayResults results st).recommendationRows.get? idx).map RecRow.structureType
          = some "Unknown")
    ∧ (∀ (st : UiState) (idx : Nat),
        (∀ rs, st.analysisResults = some rs → rs.get? idx = none) →
        showDetailedAnalysis st idx = st)
    ∧ (∀ (st : UiState) (idx : Nat) (rs : List AnalysisResultR) (r : AnalysisResultR),
        st.analysisResults = some rs → rs.get? idx = some r →
        st.selectedPoints.length ≤ idx →
        (showDetailedAnalysis st idx).modal = some
          { structureType := "Unknown"
            score := r.score
            lat := r.lat
            lon := r.lon
            meanTemp := r.mean_temp
            meanPrecip := r.mean_precip
            nDays := r.n_days
            recommendation := recommendationFor r.score }) := by
  refine ⟨?_, ?_, ?_⟩
  · intro results st idx hp hr
    have h1 : results.get? idx = some (results.get ⟨idx, hr⟩) := List.get?_eq_get hr
    have h2 : st.selectedPoints.get? idx = none := List.get?_eq_none.mpr hp
    rw [List.get?_eq_getElem?] at h2
    rw [show (displayResults results st).recommendationRows
          = buildRecRows st.selectedPoints 0 results from rfl,
        buildRecRows_get st.selectedPoints results 0 idx, h1]
    simp [mkRecRow, h2]
  · intro st idx h
    rcases hres : st.analysisResults with _ | rs
    · simp [showDetailedAnalysis, hres]
    · have hn := h rs hres
      rw [List.get?_eq_getElem?] at hn
      simp [showDetailedAnalysis, hres, hn]
  · intro st idx rs r h1 h2 h3
    have hn : st.selectedPoints.get? idx = none := List.get?_eq_none.mpr h3
    rw [List.get?_eq_getElem?] at hn h2
    simp [showDetailedAnalysis, h1, h2, hn]

/-- Witness for the C10 theorem: one placement with two results makes
row 1 and detail 1 fall back to "Unknown"; the detail view at index 5 of
a session without stored results is a no-op. -/
theorem mismatch_totality_witness :
    (((displayResults [tempResultA, tempResultB]
          uiWithOnePlacement).recommendationRows.get? 1).map RecRow.structureType
        = some "Unknown")
    ∧ (showDetailedAnalysis uiWithOnePlacement 5 = uiWithOnePlacement)
    ∧ ((showDetailedAnalysis uiMismatch 1).modal = some
        { structureType := "Unknown"
          score := tempResultB.score
          lat := tempResultB.lat
          lon := tempResultB.lon
          meanTemp := tempResultB.mean_temp
          meanPrecip := tempResultB.mean_precip
          nDays := tempResultB.n_days
          recommendation := recommendationFor tempResultB.score }) :=
  ⟨mismatch_totality.1 [tempResultA, tempResultB] uiWithOnePlacement 1 (by decide) (by decide),
   mismatch_totality.2.1 uiWithOnePlacement 5 (fun rs h => nomatch h),
   mismatch_totality.2.2 uiMismatch 1 [tempResultA, tempResultB] tempResultB rfl rfl (by decide)⟩

end MRNASA
